import Mathlib

/-!
Verification of the Script Bridge core of the ScriptVisualTests repository.

The development shallowly embeds the `GameScriptInterface` scriptable-object
bridge (Code/Game/Framework/GameScriptInterface.cpp) together with the `Game`
methods it calls (Code/Game/Gameplay/Game.cpp).  C++ `float` positions are
modeled as exact rationals; C++ exceptions are modeled as an explicit
`Outcome.exn` value that flows until a `catch` block (`Outcome.catchExn`)
converts it; `ERROR_AND_DIE` (process termination, never catchable) is modeled
as `Outcome.fatal`.
-/

set_option autoImplicit false

namespace ScriptVisualTests

/-- 3D vector (engine `Vec3`); `float` components modeled as exact rationals. -/
structure Vec3 where
  x : ℚ
  y : ℚ
  z : ℚ
  deriving DecidableEq, Repr

/-- Componentwise vector addition (engine `Vec3::operator+`). -/
def Vec3.add (a b : Vec3) : Vec3 :=
  { x := a.x + b.x, y := a.y + b.y, z := a.z + b.z }

/-- Game state enum from Game.hpp (`enum class eGameState : uint8_t`). -/
inductive eGameState where
  | ATTRACT
  | GAME
  deriving DecidableEq, Repr

/-- A gameplay prop (source class `Prop`, Prop.hpp; renamed because `Prop` is a
reserved name in Lean).  Only the position field crosses the script bridge;
the color, orientation and vertex fields are rendering-only data driven by
engine subsystems and never observed through the bridge. -/
structure GameProp where
  position : Vec3
  deriving DecidableEq, Repr

/-- The player entity (Player.hpp); only `m_position` is observed by the
bridge (`getPlayerPosition`, `movePlayerCamera`). -/
structure Player where
  position : Vec3
  deriving DecidableEq, Repr

/-- The bridge-visible state of the running game: the `Game` members the
script interface reads or writes (Game.hpp lines 78-85), the quit flag of
`App` (App.hpp `m_isQuitting`), and the status of the global script
subsystem pointer consulted by `Game` (`g_scriptSubsystem` null-ness and
`IsInitialized()`). -/
structure GameState where
  gameState : eGameState
  props : List GameProp
  player : Option Player
  originalPlayerPosition : Vec3
  cameraShakeActive : Bool
  scriptPresent : Bool
  scriptInit : Bool
  isQuitting : Bool
  deriving DecidableEq, Repr

/-- Modelled from the spec: a dynamically-typed script value crossing the
native/script boundary — "a sum type (tagged variant over \x7bint, float,
string, bool, object-reference\x7d)" (spec 9).  The engine's `std::any`
arguments are not part of src/. -/
inductive ScriptValue where
  | int (n : ℤ)
  | float (q : ℚ)
  | str (s : String)
  | bool (b : Bool)
  | objRef
  deriving DecidableEq, Repr

/-- Payload carried by a successful `ScriptMethodResult`: the source calls
`Success()`, `Success(String)` and `Success(bool)`. -/
inductive ResultPayload where
  | noPayload
  | strPayload (s : String)
  | boolPayload (b : Bool)
  deriving DecidableEq, Repr

/-- Modelled from the spec: the engine's `ScriptMethodResult` — "tagged union
of \x7bSuccess(optional string or bool payload), Error(message)\x7d" (spec 3);
the engine header is not part of src/. -/
inductive ScriptMethodResult where
  | success (payload : ResultPayload)
  | error (msg : String)
  deriving DecidableEq, Repr

/-- The `result.success` field consulted by every handler
(`if (!result.success) return result;`). -/
def ScriptMethodResult.isSuccess : ScriptMethodResult → Bool
  | ScriptMethodResult.success _ => true
  | ScriptMethodResult.error _ => false

/-- Static method descriptor (engine `ScriptMethodInfo`), constructed in
`GameScriptInterface::GetAvailableMethods` with (name, description,
parameter type names, return type name). -/
structure ScriptMethodInfo where
  name : String
  description : String
  paramTypes : List String
  returnType : String
  deriving DecidableEq, Repr

/-- Outcome of running a piece of native code: normal return, a C++ exception
in flight (catchable), or `ERROR_AND_DIE` process termination (not
catchable). -/
inductive Outcome (α : Type) where
  | ok (a : α)
  | exn (msg : String)
  | fatal (msg : String)
  deriving DecidableEq, Repr

/-- Sequencing of native code: an exception or a fatal termination aborts the
rest of the computation. -/
def Outcome.bind {α β : Type} : Outcome α → (α → Outcome β) → Outcome β
  | Outcome.ok a, f => f a
  | Outcome.exn e, _ => Outcome.exn e
  | Outcome.fatal m, _ => Outcome.fatal m

/-- A C++ `try { body } catch (std::exception const& e) { handler }` block:
an exception value is handed to the handler, a normal return and a fatal
termination pass through. -/
def Outcome.catchExn {α : Type} : Outcome α → (String → α) → Outcome α
  | Outcome.ok a, _ => Outcome.ok a
  | Outcome.exn e, h => Outcome.ok (h e)
  | Outcome.fatal m, _ => Outcome.fatal m

/-- True exactly on an exception in flight. -/
def Outcome.isExn {α : Type} : Outcome α → Bool
  | Outcome.exn _ => true
  | _ => false

/-- Model of C++ `std::to_string` on a floating-point value: fixed-point
notation with exactly six digits after the decimal point (printf `%f`),
rounding half away from zero; exact on the exactly-representable rational
values this development evaluates it at. -/
def floatToString (q : ℚ) : String :=
  let sign := if q < 0 then "-" else ""
  let a : ℚ := |q|
  let scaled : ℕ := (a.num.toNat * 1000000 * 2 + a.den) / (2 * a.den)
  let ip := scaled / 1000000
  let frac := scaled % 1000000
  let fracStr := toString frac
  let padded := String.mk (List.replicate (6 - fracStr.length) '0') ++ fracStr
  sign ++ toString ip ++ "." ++ padded

/-- `pat` occurs as a contiguous run somewhere in `l`. -/
def listContainsRun (pat : List Char) : List Char → Bool
  | [] => pat.isEmpty
  | c :: rest => pat.isPrefixOf (c :: rest) || listContainsRun pat rest

/-- `pat` occurs as a contiguous substring of `hay`. -/
def containsSubstring (hay pat : String) : Bool :=
  listContainsRun pat.toList hay.toList

/-- ASCII-uppercasing of a string, used to state case-insensitive equality of
two strings. -/
def toUpperAscii (s : String) : String :=
  String.mk (s.data.map Char.toUpper)

namespace ScriptTypeExtractor

/-- Modelled from the spec: the engine's
`ScriptTypeExtractor::ValidateArgCount(args, expectedCount, methodName)`
(not part of src/) — "succeeds silently if count matches; else returns
`Error("<methodName> expects <expectedCount> arguments, got <actual>")`"
(spec 4.2). -/
def ValidateArgCount (args : List ScriptValue) (expectedCount : ℕ) (methodName : String) : ScriptMethodResult :=
  if args.length = expectedCount then ScriptMethodResult.success ResultPayload.noPayload
  else ScriptMethodResult.error (methodName ++ " expects " ++ toString expectedCount ++ " arguments, got " ++ toString args.length)

/-- Modelled from the spec: `ScriptTypeExtractor::ExtractFloat` (not part of
src/) — "numeric types accept any script numeric representation", anything
else "fails with a descriptive error (surfaced by throwing)" (spec 4.2). -/
def ExtractFloat : ScriptValue → Except String ℚ
  | ScriptValue.float q => Except.ok q
  | ScriptValue.int n => Except.ok (n : ℚ)
  | _ => Except.error "ExtractFloat: value is not numeric"

/-- Modelled from the spec: `ScriptTypeExtractor::ExtractInt` (not part of
src/) — numeric representations accepted (a fractional value is truncated the
way the script engine narrows a number to an integer), anything else throws. -/
def ExtractInt : ScriptValue → Except String ℤ
  | ScriptValue.int n => Except.ok n
  | ScriptValue.float q => Except.ok q.floor
  | _ => Except.error "ExtractInt: value is not numeric"

/-- Modelled from the spec: `ScriptTypeExtractor::ExtractString` (not part of
src/) — "strings accept only script string values" (spec 4.2); anything else
throws. -/
def ExtractString : ScriptValue → Except String String
  | ScriptValue.str s => Except.ok s
  | _ => Except.error "ExtractString: value is not a string"

/-- Bounds-checked read of `args[i]` (C++ `std::vector` indexing at the
extraction boundary). -/
def argAt (args : List ScriptValue) (i : ℕ) : Except String ScriptValue :=
  match args.get? i with
  | some v => Except.ok v
  | none => Except.error "argument index out of range"

/-- Modelled from the spec: `ScriptTypeExtractor::ExtractVec3(args,
startIndex)` (not part of src/) — "consumes exactly three consecutive numeric
arguments starting at `startIndex` as (x, y, z) in that order" (spec 4.2),
throwing on a missing or non-numeric component. -/
def ExtractVec3 (args : List ScriptValue) (startIndex : ℕ) : Except String Vec3 := do
  let a0 ← argAt args startIndex
  let a1 ← argAt args (startIndex + 1)
  let a2 ← argAt args (startIndex + 2)
  let x ← ExtractFloat a0
  let y ← ExtractFloat a1
  let z ← ExtractFloat a2
  Except.ok { x := x, y := y, z := z }

end ScriptTypeExtractor

namespace App

/-- `App::RequestQuit` (App.cpp:375): sets the static quit flag. -/
def RequestQuit (s : GameState) : GameState :=
  { s with isQuitting := true }

end App

namespace Game

/-- `Game::IsAttractMode` (Game.cpp:138). -/
def IsAttractMode (s : GameState) : Bool :=
  match s.gameState with
  | eGameState.ATTRACT => true
  | eGameState.GAME => false

/-- `Game::GetGameState` (Game.cpp:839). -/
def GetGameState (s : GameState) : eGameState :=
  s.gameState

/-- `Game::SetGameState` (Game.cpp:844). -/
def SetGameState (newState : eGameState) (s : GameState) : GameState :=
  { s with gameState := newState }

/-- `Game::CreateCube` (Game.cpp:939): appends a new prop at the given
position (`m_props.push_back`).  The cube's random color (engine RNG) and its
vertex data are rendering-only and outside the modeled state. -/
def CreateCube (position : Vec3) (s : GameState) : GameState :=
  { s with props := s.props ++ [{ position := position }] }

/-- `Game::MoveProp` (Game.cpp:960): in-range index moves the prop; an
out-of-range index leaves every prop untouched and emits the
`DebuggerPrintf` warning, returned here as the optional diagnostic string. -/
def MoveProp (propIndex : ℤ) (newPosition : Vec3) (s : GameState) : GameState × Option String :=
  if 0 ≤ propIndex ∧ propIndex < (s.props.length : ℤ) then
    ({ s with props := s.props.set propIndex.toNat { position := newPosition } }, none)
  else
    (s, some ("警告：JavaScript 請求移動無效的物件索引 " ++ toString propIndex ++ "（總共 " ++ toString s.props.length ++ " 個物件）"))

/-- `Game::GetPlayer` (Game.cpp:975). -/
def GetPlayer (s : GameState) : Option Player :=
  s.player

/-- `Game::MovePlayerCamera` (Game.cpp:1051): on the first call (shake not
yet active) the player's current position is latched into
`m_originalPlayerPosition` and the shake flag is set; every call then places
the player at the latched origin plus this call's offset.  Nothing in the
source ever resets the latch. -/
def MovePlayerCamera (offset : Vec3) (s : GameState) : GameState :=
  match s.player with
  | none => s
  | some player =>
      let s1 :=
        if s.cameraShakeActive then s
        else { s with originalPlayerPosition := player.position, cameraShakeActive := true }
      { s1 with player := some { player with position := Vec3.add s1.originalPlayerPosition offset } }

/-- `Game::ExecuteJavaScriptCommand` (Game.cpp:686): a missing or
uninitialized script subsystem only logs and returns; otherwise the command
is handed to the engine's script runtime (an external effect on the script
heap, not on the modeled bridge state) and its success/failure is logged. -/
def ExecuteJavaScriptCommand (command : String) (s : GameState) : Outcome GameState :=
  if s.scriptPresent = false then Outcome.ok s
  else if s.scriptInit = false then Outcome.ok s
  else Outcome.ok s

/-- `Game::ExecuteJavaScriptFile` (Game.cpp:850): unlike the command variant,
a missing or uninitialized script subsystem is `ERROR_AND_DIE` — fatal
process termination; otherwise the file is executed by the engine runtime
(external effect) with failures logged. -/
def ExecuteJavaScriptFile (filename : String) (s : GameState) : Outcome GameState :=
  if s.scriptPresent = false then
    Outcome.fatal "(Game::ExecuteJavaScriptFile)(g_scriptSubsystem is nullptr!)"
  else if s.scriptInit = false then
    Outcome.fatal "(Game::ExecuteJavaScriptFile)(g_scriptSubsystem is not initialized!)"
  else Outcome.ok s

/-- `Game::Update(float, float)` (Game.cpp:980): runs `UpdateEntities`,
keyboard/controller handling and the console/JavaScript key hooks.
`UpdateEntities` (Game.cpp:594-604) unconditionally indexes `m_props[0]`,
`m_props[1]` and `m_props[2]`, a crash when fewer than three props exist;
apart from that the body never throws, and under the input environment
modeled here (no key events, console closed) its effects land on entity
orientation/color fields and engine clocks, all outside the modeled bridge
state. -/
def Update (gameDeltaSeconds systemDeltaSeconds : ℚ) (s : GameState) : Outcome GameState :=
  if s.props.length < 3 then
    Outcome.fatal "Game::UpdateEntities indexes m_props[0], m_props[1] and m_props[2]"
  else Outcome.ok s

/-- `Game::Render` (Game.cpp:992): dereferences `m_player` unconditionally
(`m_player->GetCamera()`) — a crash when no player exists; otherwise issues
draw calls (external renderer effects) and returns normally. -/
def Render (s : GameState) : Outcome GameState :=
  match s.player with
  | none => Outcome.fatal "Game::Render dereferences a null m_player"
  | some _ => Outcome.ok s

end Game

/-- A call the frame-dispatch layer performs during one frame. -/
inductive FrameAction where
  | jsCommand (command : String)
  | nativeUpdate (gameDeltaSeconds systemDeltaSeconds : ℚ)
  | nativeRender
  deriving DecidableEq, Repr

namespace Game

/-- `Game::UpdateJS` (Game.cpp:97): when the script subsystem exists and is
initialized, the frame's deltas are forwarded to the script entry point
`globalThis.JSEngine.update(...)`; otherwise nothing happens — the native
fallback (`Update(gameDeltaSeconds, systemDeltaSeconds)`) is commented out in
the source.  Returns the list of calls performed this frame. -/
def UpdateJS (gameDeltaSeconds systemDeltaSeconds : ℚ) (s : GameState) : List FrameAction :=
  if s.scriptPresent && s.scriptInit then
    [FrameAction.jsCommand ("globalThis.JSEngine.update(" ++ floatToString gameDeltaSeconds ++ ", " ++ floatToString systemDeltaSeconds ++ ");")]
  else []

/-- `Game::RenderJS` (Game.cpp:120): when the script subsystem exists and is
initialized, invokes `globalThis.JSEngine.render();`; otherwise nothing
happens — the native fallback (`Render()`) is commented out in the source. -/
def RenderJS (s : GameState) : List FrameAction :=
  if s.scriptPresent && s.scriptInit then
    [FrameAction.jsCommand "globalThis.JSEngine.render();"]
  else []

end Game

/-- The bridge-visible state right after `Game::Game()` (Game.cpp:38):
`SpawnPlayer`/`InitPlayer` place the player at (-2, 0, 1): `SpawnProps`/
`InitProps` create four props at (2,2,0), (-2,-2,0), (10,-5,1) and the
origin; the state enum starts at `ATTRACT`, the camera-shake latch at
`false`, `App::m_isQuitting` at `false`; the script subsystem is taken as
present and initialized (the configuration under which the bridge runs). -/
def initialGameState : GameState :=
  { gameState := eGameState.ATTRACT
    props := [{ position := { x := 2, y := 2, z := 0 } },
              { position := { x := -2, y := -2, z := 0 } },
              { position := { x := 10, y := -5, z := 1 } },
              { position := { x := 0, y := 0, z := 0 } }]
    player := some { position := { x := -2, y := 0, z := 1 } }
    originalPlayerPosition := { x := -2, y := 0, z := 1 }
    cameraShakeActive := false
    scriptPresent := true
    scriptInit := true
    isQuitting := false }

namespace GameScriptInterface

/-- `GameScriptInterface::GetAvailableMethods` (GameScriptInterface.cpp:26):
the static list of eleven method descriptors, verbatim from the source. -/
def GetAvailableMethods : List ScriptMethodInfo :=
  [{ name := "appRequestQuit", description := "Request quit to app",
     paramTypes := [], returnType := "void" },
   { name := "createCube", description := "在指定位置創建一個立方體",
     paramTypes := ["float", "float", "float"], returnType := "string" },
   { name := "moveProp", description := "移動指定索引的道具到新位置",
     paramTypes := ["int", "float", "float", "float"], returnType := "string" },
   { name := "getPlayerPosition", description := "取得玩家目前位置",
     paramTypes := [], returnType := "object" },
   { name := "movePlayerCamera", description := "移動玩家相機（用於晃動效果）",
     paramTypes := ["float", "float", "float"], returnType := "string" },
   { name := "update", description := "JavaScript GameLoop Update",
     paramTypes := ["float", "float"], returnType := "void" },
   { name := "render", description := "JavaScript GameLoop Render",
     paramTypes := [], returnType := "void" },
   { name := "executeCommand", description := "執行 JavaScript 指令",
     paramTypes := ["string"], returnType := "string" },
   { name := "executeFile", description := "執行 JavaScript 檔案",
     paramTypes := ["string"], returnType := "string" },
   { name := "isAttractMode", description := "檢查遊戲是否處於吸引模式",
     paramTypes := [], returnType := "bool" },
   { name := "getFileTimestamp", description := "取得檔案的最後修改時間戳記",
     paramTypes := ["string"], returnType := "number" }]

/-- `GameScriptInterface::GetAvailableProperties` (GameScriptInterface.cpp:87). -/
def GetAvailableProperties : List String :=
  ["attractMode", "gameState"]

/-- `GameScriptInterface::ExecuteAppRequestQuit` (GameScriptInterface.cpp:215).
The catch block's message is the source's copy of createCube's text; the try
body (`App::RequestQuit`) cannot throw. -/
def ExecuteAppRequestQuit (args : List ScriptValue) (s : GameState) : Outcome (ScriptMethodResult × GameState) :=
  let result := ScriptTypeExtractor.ValidateArgCount args 0 "appRequestQuit"
  if result.isSuccess = false then Outcome.ok (result, s)
  else
    Outcome.catchExn
      (Outcome.ok (ScriptMethodResult.success ResultPayload.noPayload, App.RequestQuit s))
      (fun e => (ScriptMethodResult.error ("創建立方體失敗: " ++ e), s))

/-- `GameScriptInterface::ExecuteCreateCube` (GameScriptInterface.cpp:232). -/
def ExecuteCreateCube (args : List ScriptValue) (s : GameState) : Outcome (ScriptMethodResult × GameState) :=
  let result := ScriptTypeExtractor.ValidateArgCount args 3 "createCube"
  if result.isSuccess = false then Outcome.ok (result, s)
  else
    Outcome.catchExn
      (match ScriptTypeExtractor.ExtractVec3 args 0 with
       | Except.error e => Outcome.exn e
       | Except.ok position =>
           Outcome.ok (ScriptMethodResult.success (ResultPayload.strPayload
             ("立方體創建成功，位置: (" ++ floatToString position.x ++ ", " ++
              floatToString position.y ++ ", " ++ floatToString position.z ++ ")")),
             Game.CreateCube position s))
      (fun e => (ScriptMethodResult.error ("創建立方體失敗: " ++ e), s))

/-- `GameScriptInterface::ExecuteMoveProp` (GameScriptInterface.cpp:253).
Note the handler reports success whether or not the index was in range; the
out-of-range diagnostic of `Game::MoveProp` goes to the debugger output. -/
def ExecuteMoveProp (args : List ScriptValue) (s : GameState) : Outcome (ScriptMethodResult × GameState) :=
  let result := ScriptTypeExtractor.ValidateArgCount args 4 "moveProp"
  if result.isSuccess = false then Outcome.ok (result, s)
  else
    Outcome.catchExn
      (match (do
          let a0 ← ScriptTypeExtractor.argAt args 0
          let propIndex ← ScriptTypeExtractor.ExtractInt a0
          let newPosition ← ScriptTypeExtractor.ExtractVec3 args 1
          Except.ok (propIndex, newPosition) : Except String (ℤ × Vec3)) with
       | Except.error e => Outcome.exn e
       | Except.ok (propIndex, newPosition) =>
           Outcome.ok (ScriptMethodResult.success (ResultPayload.strPayload
             ("道具 " ++ toString propIndex ++ " 移動成功，新位置: (" ++
              floatToString newPosition.x ++ ", " ++ floatToString newPosition.y ++ ", " ++
              floatToString newPosition.z ++ ")")),
             (Game.MoveProp propIndex newPosition s).1))
      (fun e => (ScriptMethodResult.error ("移動道具失敗: " ++ e), s))

/-- `GameScriptInterface::ExecuteGetPlayerPosition` (GameScriptInterface.cpp:276). -/
def ExecuteGetPlayerPosition (args : List ScriptValue) (s : GameState) : Outcome (ScriptMethodResult × GameState) :=
  let result := ScriptTypeExtractor.ValidateArgCount args 0 "getPlayerPosition"
  if result.isSuccess = false then Outcome.ok (result, s)
  else
    Outcome.catchExn
      (match Game.GetPlayer s with
       | none => Outcome.ok (ScriptMethodResult.error "玩家物件不存在", s)
       | some player =>
           Outcome.ok (ScriptMethodResult.success (ResultPayload.strPayload
             ("\x7b x: " ++ floatToString player.position.x ++
              ", y: " ++ floatToString player.position.y ++
              ", z: " ++ floatToString player.position.z ++ " \x7d")), s))
      (fun e => (ScriptMethodResult.error ("取得玩家位置失敗: " ++ e), s))

/-- `GameScriptInterface::ExecuteMovePlayerCamera` (GameScriptInterface.cpp:306). -/
def ExecuteMovePlayerCamera (args : List ScriptValue) (s : GameState) : Outcome (ScriptMethodResult × GameState) :=
  let result := ScriptTypeExtractor.ValidateArgCount args 3 "movePlayerCamera"
  if result.isSuccess = false then Outcome.ok (result, s)
  else
    Outcome.catchExn
      (match ScriptTypeExtractor.ExtractVec3 args 0 with
       | Except.error e => Outcome.exn e
       | Except.ok offset =>
           Outcome.ok (ScriptMethodResult.success (ResultPayload.strPayload
             ("相機位置已移動: (" ++ floatToString offset.x ++ ", " ++
              floatToString offset.y ++ ", " ++ floatToString offset.z ++ ")")),
             Game.MovePlayerCamera offset s))
      (fun e => (ScriptMethodResult.error ("移動玩家相機失敗: " ++ e), s))

/-- `GameScriptInterface::ExecuteRender` (GameScriptInterface.cpp:326). -/
def ExecuteRender (args : List ScriptValue) (s : GameState) : Outcome (ScriptMethodResult × GameState) :=
  let result := ScriptTypeExtractor.ValidateArgCount args 0 "Render"
  if result.isSuccess = false then Outcome.ok (result, s)
  else
    Outcome.catchExn
      (Outcome.bind (Game.Render s) (fun s1 =>
        Outcome.ok (ScriptMethodResult.success (ResultPayload.strPayload "Render Success"), s1)))
      (fun e => (ScriptMethodResult.error ("Render failed: " ++ e), s))

/-- `GameScriptInterface::ExecuteUpdate` (GameScriptInterface.cpp:342). -/
def ExecuteUpdate (args : List ScriptValue) (s : GameState) : Outcome (ScriptMethodResult × GameState) :=
  let result := ScriptTypeExtractor.ValidateArgCount args 2 "Update"
  if result.isSuccess = false then Outcome.ok (result, s)
  else
    Outcome.catchExn
      (match (do
          let a0 ← ScriptTypeExtractor.argAt args 0
          let gameDeltaSeconds ← ScriptTypeExtractor.ExtractFloat a0
          let a1 ← ScriptTypeExtractor.argAt args 1
          let systemDeltaSeconds ← ScriptTypeExtractor.ExtractFloat a1
          Except.ok (gameDeltaSeconds, systemDeltaSeconds) : Except String (ℚ × ℚ)) with
       | Except.error e => Outcome.exn e
       | Except.ok (gameDeltaSeconds, systemDeltaSeconds) =>
           Outcome.bind (Game.Update gameDeltaSeconds systemDeltaSeconds s) (fun s1 =>
             Outcome.ok (ScriptMethodResult.success (ResultPayload.strPayload "Update Success"), s1)))
      (fun e => (ScriptMethodResult.error ("Update failed: " ++ e), s))

/-- `GameScriptInterface::ExecuteJavaScriptCommand` (GameScriptInterface.cpp:362). -/
def ExecuteJavaScriptCommand (args : List ScriptValue) (s : GameState) : Outcome (ScriptMethodResult × GameState) :=
  let result := ScriptTypeExtractor.ValidateArgCount args 1 "executeCommand"
  if result.isSuccess = false then Outcome.ok (result, s)
  else
    Outcome.catchExn
      (match (do
          let a0 ← ScriptTypeExtractor.argAt args 0
          ScriptTypeExtractor.ExtractString a0 : Except String String) with
       | Except.error e => Outcome.exn e
       | Except.ok command =>
           Outcome.bind (Game.ExecuteJavaScriptCommand command s) (fun s1 =>
             Outcome.ok (ScriptMethodResult.success (ResultPayload.strPayload ("指令執行: " ++ command)), s1)))
      (fun e => (ScriptMethodResult.error ("執行 JavaScript 指令失敗: " ++ e), s))

/-- `GameScriptInterface::ExecuteJavaScriptFile` (GameScriptInterface.cpp:380). -/
def ExecuteJavaScriptFile (args : List ScriptValue) (s : GameState) : Outcome (ScriptMethodResult × GameState) :=
  let result := ScriptTypeExtractor.ValidateArgCount args 1 "executeFile"
  if result.isSuccess = false then Outcome.ok (result, s)
  else
    Outcome.catchExn
      (match (do
          let a0 ← ScriptTypeExtractor.argAt args 0
          ScriptTypeExtractor.ExtractString a0 : Except String String) with
       | Except.error e => Outcome.exn e
       | Except.ok filename =>
           Outcome.bind (Game.ExecuteJavaScriptFile filename s) (fun s1 =>
             Outcome.ok (ScriptMethodResult.success (ResultPayload.strPayload ("檔案執行: " ++ filename)), s1)))
      (fun e => (ScriptMethodResult.error ("執行 JavaScript 檔案失敗: " ++ e), s))

/-- `GameScriptInterface::ExecuteIsAttractMode` (GameScriptInterface.cpp:398). -/
def ExecuteIsAttractMode (args : List ScriptValue) (s : GameState) : Outcome (ScriptMethodResult × GameState) :=
  let result := ScriptTypeExtractor.ValidateArgCount args 0 "isAttractMode"
  if result.isSuccess = false then Outcome.ok (result, s)
  else
    Outcome.catchExn
      (Outcome.ok (ScriptMethodResult.success (ResultPayload.boolPayload (Game.IsAttractMode s)), s))
      (fun e => (ScriptMethodResult.error ("檢查吸引模式失敗: " ++ e), s))

/-- The body of the `try` block of `GameScriptInterface::CallMethod`
(GameScriptInterface.cpp:99-142): the string-keyed dispatch chain; an
unmatched name yields the unknown-method error. -/
def CallMethodBody (methodName : String) (args : List ScriptValue) (s : GameState) : Outcome (ScriptMethodResult × GameState) :=
  if methodName = "appRequestQuit" then ExecuteAppRequestQuit args s
  else if methodName = "createCube" then ExecuteCreateCube args s
  else if methodName = "moveProp" then ExecuteMoveProp args s
  else if methodName = "getPlayerPosition" then ExecuteGetPlayerPosition args s
  else if methodName = "movePlayerCamera" then ExecuteMovePlayerCamera args s
  else if methodName = "update" then ExecuteUpdate args s
  else if methodName = "render" then ExecuteRender args s
  else if methodName = "executeCommand" then ExecuteJavaScriptCommand args s
  else if methodName = "executeFile" then ExecuteJavaScriptFile args s
  else if methodName = "isAttractMode" then ExecuteIsAttractMode args s
  else Outcome.ok (ScriptMethodResult.error ("未知的方法: " ++ methodName), s)

/-- `GameScriptInterface::CallMethod` (GameScriptInterface.cpp:96): the
dispatch chain wrapped in the protocol-boundary `try`/`catch` converting any
escaping `std::exception` into an `Error` result.  (No mutation of the
modeled state precedes any throw inside the handlers, so the state passed to
the catch handler is the entry state, as in the source.) -/
def CallMethod (methodName : String) (args : List ScriptValue) (s : GameState) : Outcome (ScriptMethodResult × GameState) :=
  Outcome.catchExn (CallMethodBody methodName args s)
    (fun e => (ScriptMethodResult.error ("方法執行時發生例外: " ++ e), s))

/-- `GameScriptInterface::GetProperty` (GameScriptInterface.cpp:151): returns
the attract flag as a bool, the state enum under its string name, and an
empty value for every unknown property.  (The source's `default: "UNKNOWN"`
switch arm is unreachable for the two-valued enum.) -/
def GetProperty (propertyName : String) (s : GameState) : Option ScriptValue :=
  if propertyName = "attractMode" then some (ScriptValue.bool (Game.IsAttractMode s))
  else if propertyName = "gameState" then
    match Game.GetGameState s with
    | eGameState.ATTRACT => some (ScriptValue.str "ATTRACT")
    | eGameState.GAME => some (ScriptValue.str "GAME")
  else none

/-- `GameScriptInterface::SetProperty` (GameScriptInterface.cpp:178): only
`gameState` is writable; the incoming value must extract as a string (a
failed extraction is caught and reported as `false`); the exact spellings
"ATTRACT"/"attract"/"0" select `ATTRACT` and "GAME"/"game"/"1" select
`GAME`; any other string returns `false` before any mutation. -/
def SetProperty (propertyName : String) (value : ScriptValue) (s : GameState) : Bool × GameState :=
  if propertyName = "gameState" then
    match ScriptTypeExtractor.ExtractString value with
    | Except.error _ => (false, s)
    | Except.ok stateStr =>
        if stateStr = "ATTRACT" ∨ stateStr = "attract" ∨ stateStr = "0" then
          (true, Game.SetGameState eGameState.ATTRACT s)
        else if stateStr = "GAME" ∨ stateStr = "game" ∨ stateStr = "1" then
          (true, Game.SetGameState eGameState.GAME s)
        else (false, s)
  else (false, s)

end GameScriptInterface

/-- The outcome of a method call is a normal return whose result reports
success. -/
def outcomeIsSuccess : Outcome (ScriptMethodResult × GameState) → Bool
  | Outcome.ok (r, _) => r.isSuccess
  | _ => false

/-- The outcome of a method call is a normal return of an `Error` result with
the game state equal to `s`. -/
def outcomeIsErrorAt (o : Outcome (ScriptMethodResult × GameState)) (s : GameState) : Prop :=
  match o with
  | Outcome.ok (ScriptMethodResult.error _, s1) => s1 = s
  | _ => False

/-- The string payload of a successful outcome, when there is one. -/
def outcomeSuccessMessage : Outcome (ScriptMethodResult × GameState) → Option String
  | Outcome.ok (ScriptMethodResult.success (ResultPayload.strPayload m), _) => some m
  | _ => none

/-- A script value is correctly typed for a documented parameter type name
(the strings appearing in `GetAvailableMethods`). -/
def TypedArg (t : String) (v : ScriptValue) : Bool :=
  if t = "float" then
    match v with
    | ScriptValue.float _ => true
    | _ => false
  else if t = "int" then
    match v with
    | ScriptValue.int _ => true
    | _ => false
  else if t = "string" then
    match v with
    | ScriptValue.str _ => true
    | _ => false
  else false

/-- An argument list has exactly the documented parameter types, pointwise. -/
def ArgsMatch : List String → List ScriptValue → Bool
  | [], [] => true
  | t :: ts, v :: vs => TypedArg t v && ArgsMatch ts vs
  | _, _ => false

theorem argsMatch_nil : ∀ (args : List ScriptValue), ArgsMatch [] args = true → args = []
  | [], _ => rfl
  | _ :: _, h => Bool.noConfusion h

theorem argsMatch_cons (t : String) (ts : List String) :
    ∀ (args : List ScriptValue), ArgsMatch (t :: ts) args = true →
      ∃ v vs, args = v :: vs ∧ TypedArg t v = true ∧ ArgsMatch ts vs = true
  | [], h => Bool.noConfusion h
  | v :: vs, h => by
      have h2 : (TypedArg t v && ArgsMatch ts vs) = true := h
      obtain ⟨ha, hb⟩ := Bool.and_eq_true_iff.mp h2
      exact ⟨v, vs, rfl, ha, hb⟩

theorem typedArg_float : ∀ (v : ScriptValue), TypedArg "float" v = true → ∃ q, v = ScriptValue.float q
  | ScriptValue.float q, _ => ⟨q, rfl⟩
  | ScriptValue.int _, h => Bool.noConfusion h
  | ScriptValue.str _, h => Bool.noConfusion h
  | ScriptValue.bool _, h => Bool.noConfusion h
  | ScriptValue.objRef, h => Bool.noConfusion h

theorem typedArg_int : ∀ (v : ScriptValue), TypedArg "int" v = true → ∃ n, v = ScriptValue.int n
  | ScriptValue.int n, _ => ⟨n, rfl⟩
  | ScriptValue.float _, h => Bool.noConfusion h
  | ScriptValue.str _, h => Bool.noConfusion h
  | ScriptValue.bool _, h => Bool.noConfusion h
  | ScriptValue.objRef, h => Bool.noConfusion h

theorem typedArg_string : ∀ (v : ScriptValue), TypedArg "string" v = true → ∃ t, v = ScriptValue.str t
  | ScriptValue.str t, _ => ⟨t, rfl⟩
  | ScriptValue.float _, h => Bool.noConfusion h
  | ScriptValue.int _, h => Bool.noConfusion h
  | ScriptValue.bool _, h => Bool.noConfusion h
  | ScriptValue.objRef, h => Bool.noConfusion h

/-- C1 counterexample: `getFileTimestamp` appears in `GetAvailableMethods`
with documented parameter types `["string"]`, yet `CallMethod` with that
name and a correctly-typed single string argument returns the
unknown-method `Error`, not a `Success` — the dispatch chain has no case
for it. -/
theorem c1_counterexample :
    (GameScriptInterface.GetAvailableMethods.map ScriptMethodInfo.name).contains "getFileTimestamp" = true
    ∧ GameScriptInterface.GetAvailableMethods.any
        (fun i => i.name == "getFileTimestamp" && i.paramTypes == ["string"]) = true
    ∧ GameScriptInterface.CallMethod "getFileTimestamp"
        [ScriptValue.str "Data/Scripts/JSEngine.js"] initialGameState
      = Outcome.ok (ScriptMethodResult.error "未知的方法: getFileTimestamp", initialGameState) := by
  refine ⟨?_, ?_, ?_⟩ <;> decide

/-- C1 (amended): for every method name in `GetAvailableMethods()` other
than `getFileTimestamp`, in a state with a live player, at least the three
props `UpdateEntities` unconditionally indexes, and a present and
initialized script subsystem, calling `CallMethod` with the documented
argument count and correctly-typed arguments returns a `Success` result. -/
theorem c1_documented_methods_succeed
    (info : ScriptMethodInfo)
    (hmem : info ∈ GameScriptInterface.GetAvailableMethods)
    (hname : info.name ≠ "getFileTimestamp")
    (s : GameState) (p : Player)
    (hplayer : s.player = some p)
    (hpresent : s.scriptPresent = true)
    (hinit : s.scriptInit = true)
    (hprops : 3 ≤ s.props.length)
    (args : List ScriptValue)
    (hargs : ArgsMatch info.paramTypes args = true) :
    outcomeIsSuccess (GameScriptInterface.CallMethod info.name args s) = true := by
  obtain ⟨gs, props, player, orig, shake, sp, si, qf⟩ := s
  have hp2 : player = some p := hplayer
  subst hp2
  have hs2 : sp = true := hpresent
  subst hs2
  have hs3 : si = true := hinit
  subst hs3
  simp only [GameScriptInterface.GetAvailableMethods, List.mem_cons, List.not_mem_nil, or_false] at hmem
  rcases hmem with rfl | rfl | rfl | rfl | rfl | rfl | rfl | rfl | rfl | rfl | rfl
  · obtain rfl := argsMatch_nil _ hargs
    rfl
  · obtain ⟨v1, vs1, rfl, ht1, h1⟩ := argsMatch_cons _ _ _ hargs
    obtain ⟨v2, vs2, rfl, ht2, h2⟩ := argsMatch_cons _ _ _ h1
    obtain ⟨v3, vs3, rfl, ht3, h3⟩ := argsMatch_cons _ _ _ h2
    obtain rfl := argsMatch_nil _ h3
    obtain ⟨a, rfl⟩ := typedArg_float _ ht1
    obtain ⟨b, rfl⟩ := typedArg_float _ ht2
    obtain ⟨c, rfl⟩ := typedArg_float _ ht3
    rfl
  · obtain ⟨v1, vs1, rfl, ht1, h1⟩ := argsMatch_cons _ _ _ hargs
    obtain ⟨v2, vs2, rfl, ht2, h2⟩ := argsMatch_cons _ _ _ h1
    obtain ⟨v3, vs3, rfl, ht3, h3⟩ := argsMatch_cons _ _ _ h2
    obtain ⟨v4, vs4, rfl, ht4, h4⟩ := argsMatch_cons _ _ _ h3
    obtain rfl := argsMatch_nil _ h4
    obtain ⟨n, rfl⟩ := typedArg_int _ ht1
    obtain ⟨a, rfl⟩ := typedArg_float _ ht2
    obtain ⟨b, rfl⟩ := typedArg_float _ ht3
    obtain ⟨c, rfl⟩ := typedArg_float _ ht4
    rfl
  · obtain rfl := argsMatch_nil _ hargs
    rfl
  · obtain ⟨v1, vs1, rfl, ht1, h1⟩ := argsMatch_cons _ _ _ hargs
    obtain ⟨v2, vs2, rfl, ht2, h2⟩ := argsMatch_cons _ _ _ h1
    obtain ⟨v3, vs3, rfl, ht3, h3⟩ := argsMatch_cons _ _ _ h2
    obtain rfl := argsMatch_nil _ h3
    obtain ⟨a, rfl⟩ := typedArg_float _ ht1
    obtain ⟨b, rfl⟩ := typedArg_float _ ht2
    obtain ⟨c, rfl⟩ := typedArg_float _ ht3
    rfl
  · obtain ⟨v1, vs1, rfl, ht1, h1⟩ := argsMatch_cons _ _ _ hargs
    obtain ⟨v2, vs2, rfl, ht2, h2⟩ := argsMatch_cons _ _ _ h1
    obtain rfl := argsMatch_nil _ h2
    obtain ⟨a, rfl⟩ := typedArg_float _ ht1
    obtain ⟨b, rfl⟩ := typedArg_float _ ht2
    cases props with
    | nil =>
        have h0 : (3 : ℕ) ≤ 0 := hprops
        exact absurd h0 (by decide)
    | cons q1 rest =>
      cases rest with
      | nil =>
          have h1 : (3 : ℕ) ≤ 1 := hprops
          exact absurd h1 (by decide)
      | cons q2 rest2 =>
        cases rest2 with
        | nil =>
            have h2 : (3 : ℕ) ≤ 2 := hprops
            exact absurd h2 (by decide)
        | cons q3 rest3 => rfl
  · obtain rfl := argsMatch_nil _ hargs
    rfl
  · obtain ⟨v1, vs1, rfl, ht1, h1⟩ := argsMatch_cons _ _ _ hargs
    obtain rfl := argsMatch_nil _ h1
    obtain ⟨t, rfl⟩ := typedArg_string _ ht1
    rfl
  · obtain ⟨v1, vs1, rfl, ht1, h1⟩ := argsMatch_cons _ _ _ hargs
    obtain rfl := argsMatch_nil _ h1
    obtain ⟨t, rfl⟩ := typedArg_string _ ht1
    rfl
  · obtain rfl := argsMatch_nil _ hargs
    rfl
  · exact absurd rfl hname

/-- C1 witness: `createCube` with its documented three float arguments on
the freshly constructed game state returns `Success`. -/
theorem c1_witness :
    outcomeIsSuccess (GameScriptInterface.CallMethod "createCube"
      [ScriptValue.float 1, ScriptValue.float 2, ScriptValue.float 3] initialGameState) = true :=
  c1_documented_methods_succeed
    { name := "createCube", description := "在指定位置創建一個立方體",
      paramTypes := ["float", "float", "float"], returnType := "string" }
    (by decide) (by decide)
    initialGameState { position := { x := -2, y := 0, z := 1 } }
    rfl rfl rfl (by decide)
    [ScriptValue.float 1, ScriptValue.float 2, ScriptValue.float 3]
    (by decide)

/-- C2 counterexample: with the script subsystem not initialized, the
per-frame `UpdateJS`/`RenderJS` steps perform no call at all — in
particular they do not fall back to invoking the native update/render
methods, so gameplay does not advance that frame. -/
theorem c2_counterexample :
    Game.UpdateJS 1 1 { initialGameState with scriptInit := false } = []
    ∧ Game.RenderJS { initialGameState with scriptInit := false } = []
    ∧ decide (FrameAction.nativeUpdate 1 1 ∈ Game.UpdateJS 1 1 { initialGameState with scriptInit := false }) = false
    ∧ decide (FrameAction.nativeRender ∈ Game.RenderJS { initialGameState with scriptInit := false }) = false := by
  refine ⟨?_, ?_, ?_, ?_⟩ <;> decide

/-- C2 (amended): when the script runtime is unavailable (subsystem missing
or not initialized), the per-frame update and render steps perform no call
at all — that frame's gameplay update and render are skipped, with no
native fallback. -/
theorem c2_script_unavailable_frame_skipped
    (gameDeltaSeconds systemDeltaSeconds : ℚ) (s : GameState)
    (h : (s.scriptPresent && s.scriptInit) = false) :
    Game.UpdateJS gameDeltaSeconds systemDeltaSeconds s = [] ∧ Game.RenderJS s = [] := by
  constructor
  · simp [Game.UpdateJS, h]
  · simp [Game.RenderJS, h]

/-- C2 witness: with the subsystem uninitialized on the otherwise freshly
constructed state, both frame steps perform nothing. -/
theorem c2_witness :
    Game.UpdateJS 1 1 { initialGameState with scriptInit := false } = []
    ∧ Game.RenderJS { initialGameState with scriptInit := false } = [] :=
  c2_script_unavailable_frame_skipped 1 1 { initialGameState with scriptInit := false } rfl

/-- C3 counterexample: "gAmE" equals "GAME" under case-insensitive
comparison, yet writing it to the `gameState` property is rejected
(`false`) and the state is unchanged — the setter compares against the
exact spellings only. -/
theorem c3_counterexample :
    toUpperAscii "gAmE" = toUpperAscii "GAME"
    ∧ GameScriptInterface.SetProperty "gameState" (ScriptValue.str "gAmE") initialGameState
        = (false, initialGameState) := by
  refine ⟨?_, ?_⟩ <;> decide

/-- C3 (amended): writing the `gameState` property accepts exactly the
spellings "ATTRACT"/"attract"/"0" (selecting `ATTRACT`) and
"GAME"/"game"/"1" (selecting `GAME`), returning `true` and setting the
corresponding state; every other string — including mixed-case spellings
such as "gAmE" — is rejected with `false` and no state change. -/
theorem c3_gameState_write_accepted_spellings (s : GameState) (t : String) :
    ((t = "ATTRACT" ∨ t = "attract" ∨ t = "0") →
      GameScriptInterface.SetProperty "gameState" (ScriptValue.str t) s
        = (true, { s with gameState := eGameState.ATTRACT }))
    ∧ ((t = "GAME" ∨ t = "game" ∨ t = "1") →
      GameScriptInterface.SetProperty "gameState" (ScriptValue.str t) s
        = (true, { s with gameState := eGameState.GAME }))
    ∧ (t ∉ (["ATTRACT", "attract", "0", "GAME", "game", "1"] : List String) →
      GameScriptInterface.SetProperty "gameState" (ScriptValue.str t) s = (false, s)) := by
  refine ⟨?_, ?_, ?_⟩
  · rintro (rfl | rfl | rfl) <;> rfl
  · rintro (rfl | rfl | rfl) <;> rfl
  · intro h
    simp only [List.mem_cons, List.not_mem_nil, or_false, not_or] at h
    obtain ⟨h1, h2, h3, h4, h5, h6⟩ := h
    simp [GameScriptInterface.SetProperty, ScriptTypeExtractor.ExtractString,
      Game.SetGameState, h1, h2, h3, h4, h5, h6]

/-- C3 witness: the lowercase spelling "game" is accepted and sets `GAME`;
the mixed-case spelling "gAmE" is rejected and leaves the state alone. -/
theorem c3_witness :
    GameScriptInterface.SetProperty "gameState" (ScriptValue.str "game") initialGameState
      = (true, { initialGameState with gameState := eGameState.GAME })
    ∧ GameScriptInterface.SetProperty "gameState" (ScriptValue.str "gAmE") initialGameState
      = (false, initialGameState) :=
  ⟨(c3_gameState_write_accepted_spellings initialGameState "game").2.1 (Or.inr (Or.inl rfl)),
   (c3_gameState_write_accepted_spellings initialGameState "gAmE").2.2 (by decide)⟩

/-- C4: for every method name, argument list and state, `CallMethod` never
lets an exception escape: the outcome is either a normal return (any fault
having been converted to an `Error` result by the `try`/`catch` blocks) or
an uncatchable fatal termination — never an exception in flight. -/
theorem c4_no_exception_escapes_callMethod
    (methodName : String) (args : List ScriptValue) (s : GameState) :
    (GameScriptInterface.CallMethod methodName args s).isExn = false := by
  unfold GameScriptInterface.CallMethod
  cases GameScriptInterface.CallMethodBody methodName args s <;> rfl

/-- C5: for every method listed by `GetAvailableMethods` and every argument
list whose length differs from the documented arity, `CallMethod` returns
an `Error` result and the game state is exactly the state it was called in
— argument count is validated before any extraction or mutation. -/
theorem c5_wrong_arity_error_no_side_effect
    (info : ScriptMethodInfo)
    (hmem : info ∈ GameScriptInterface.GetAvailableMethods)
    (s : GameState) (args : List ScriptValue)
    (hlen : args.length ≠ info.paramTypes.length) :
    outcomeIsErrorAt (GameScriptInterface.CallMethod info.name args s) s := by
  simp only [GameScriptInterface.GetAvailableMethods, List.mem_cons, List.not_mem_nil, or_false] at hmem
  rcases hmem with rfl | rfl | rfl | rfl | rfl | rfl | rfl | rfl | rfl | rfl | rfl <;>
    rcases args with _ | ⟨v1, _ | ⟨v2, _ | ⟨v3, _ | ⟨v4, _ | ⟨v5, rest⟩⟩⟩⟩⟩ <;>
      first
        | exact absurd rfl hlen
        | rfl

/-- C5 witness: `moveProp` (documented arity 4) called with zero arguments
on the freshly constructed state returns `Error` and leaves the state
exactly as it was. -/
theorem c5_witness :
    outcomeIsErrorAt (GameScriptInterface.CallMethod "moveProp" [] initialGameState) initialGameState :=
  c5_wrong_arity_error_no_side_effect
    { name := "moveProp", description := "移動指定索引的道具到新位置",
      paramTypes := ["int", "float", "float", "float"], returnType := "string" }
    (by decide) initialGameState [] (by decide)

/-- C6: `SetProperty` returns `false` on an unknown property name, on a
value that does not extract as a string, and on a string that is not a
recognized `gameState` encoding; and whenever it returns `false` the
resulting state equals the prior state — native state is mutated only on
the `true`-returning path. -/
theorem c6_setProperty_failure_leaves_state
    (s : GameState) (propertyName : String) (value : ScriptValue) :
    (propertyName ≠ "gameState" →
      GameScriptInterface.SetProperty propertyName value s = (false, s))
    ∧ ((∀ t, value ≠ ScriptValue.str t) →
      GameScriptInterface.SetProperty propertyName value s = (false, s))
    ∧ (∀ t, value = ScriptValue.str t →
        t ∉ (["ATTRACT", "attract", "0", "GAME", "game", "1"] : List String) →
        GameScriptInterface.SetProperty propertyName value s = (false, s))
    ∧ ((GameScriptInterface.SetProperty propertyName value s).1 = false →
      (GameScriptInterface.SetProperty propertyName value s).2 = s) := by
  refine ⟨?_, ?_, ?_, ?_⟩
  · intro h
    simp [GameScriptInterface.SetProperty, h]
  · intro h
    by_cases hn : propertyName = "gameState"
    · subst hn
      cases value with
      | str t => exact absurd rfl (h t)
      | int n => rfl
      | float q => rfl
      | bool b => rfl
      | objRef => rfl
    · simp [GameScriptInterface.SetProperty, hn]
  · rintro t rfl ht
    by_cases hn : propertyName = "gameState"
    · subst hn
      simp only [List.mem_cons, List.not_mem_nil, or_false, not_or] at ht
      obtain ⟨h1, h2, h3, h4, h5, h6⟩ := ht
      simp [GameScriptInterface.SetProperty, ScriptTypeExtractor.ExtractString,
        h1, h2, h3, h4, h5, h6]
    · simp [GameScriptInterface.SetProperty, hn]
  · by_cases hn : propertyName = "gameState"
    · subst hn
      cases value with
      | str t =>
          by_cases hA : t = "ATTRACT" ∨ t = "attract" ∨ t = "0"
          · intro h
            exact absurd h (by simp [GameScriptInterface.SetProperty, ScriptTypeExtractor.ExtractString, hA])
          · by_cases hG : t = "GAME" ∨ t = "game" ∨ t = "1"
            · intro h
              exact absurd h (by simp [GameScriptInterface.SetProperty, ScriptTypeExtractor.ExtractString, hA, hG])
            · intro h
              simp [GameScriptInterface.SetProperty, ScriptTypeExtractor.ExtractString, hA, hG]
      | int n => intro h; rfl
      | float q => intro h; rfl
      | bool b => intro h; rfl
      | objRef => intro h; rfl
    · intro h
      simp [GameScriptInterface.SetProperty, hn]

/-- C6 witness: an unknown property name, a non-string value, and an
unrecognized state string each yield `false` with the state unchanged. -/
theorem c6_witness :
    GameScriptInterface.SetProperty "bogus" (ScriptValue.str "GAME") initialGameState
      = (false, initialGameState)
    ∧ GameScriptInterface.SetProperty "gameState" (ScriptValue.bool true) initialGameState
      = (false, initialGameState)
    ∧ GameScriptInterface.SetProperty "gameState" (ScriptValue.str "nonsense") initialGameState
      = (false, initialGameState) :=
  ⟨(c6_setProperty_failure_leaves_state initialGameState "bogus" (ScriptValue.str "GAME")).1 (by decide),
   (c6_setProperty_failure_leaves_state initialGameState "gameState" (ScriptValue.bool true)).2.1
     (by intro t h; exact ScriptValue.noConfusion h),
   (c6_setProperty_failure_leaves_state initialGameState "gameState" (ScriptValue.str "nonsense")).2.2.1
     "nonsense" rfl (by decide)⟩

/-- C7: from any state, writing "GAME", "game" or "1" to `gameState` is
equivalent: each returns `true` with the state set to `GAME`, and reading
`gameState` afterwards yields the string "GAME". -/
theorem c7_gameState_write_equivalence (s : GameState) :
    GameScriptInterface.SetProperty "gameState" (ScriptValue.str "GAME") s
      = (true, { s with gameState := eGameState.GAME })
    ∧ GameScriptInterface.SetProperty "gameState" (ScriptValue.str "game") s
      = (true, { s with gameState := eGameState.GAME })
    ∧ GameScriptInterface.SetProperty "gameState" (ScriptValue.str "1") s
      = (true, { s with gameState := eGameState.GAME })
    ∧ GameScriptInterface.GetProperty "gameState" { s with gameState := eGameState.GAME }
      = some (ScriptValue.str "GAME") :=
  ⟨rfl, rfl, rfl, rfl⟩

/-- C8: from any state, `createCube(1.0, 2.0, 3.0)` returns `Success` with
the formatted position echo — containing "1.00", "2.00" and "3.00" — and
appends exactly one prop, so the prop count grows by exactly 1. -/
theorem c8_createCube_success_and_echo (s : GameState) :
    GameScriptInterface.CallMethod "createCube"
        [ScriptValue.float 1, ScriptValue.float 2, ScriptValue.float 3] s
      = Outcome.ok (ScriptMethodResult.success (ResultPayload.strPayload
          "立方體創建成功，位置: (1.000000, 2.000000, 3.000000)"),
          { s with props := s.props ++ [{ position := { x := 1, y := 2, z := 3 } }] })
    ∧ ({ s with props := s.props ++ [{ position := { x := 1, y := 2, z := 3 } }] } : GameState).props.length
        = s.props.length + 1
    ∧ containsSubstring "立方體創建成功，位置: (1.000000, 2.000000, 3.000000)" "1.00" = true
    ∧ containsSubstring "立方體創建成功，位置: (1.000000, 2.000000, 3.000000)" "2.00" = true
    ∧ containsSubstring "立方體創建成功，位置: (1.000000, 2.000000, 3.000000)" "3.00" = true := by
  refine ⟨rfl, by simp, by decide, by decide, by decide⟩

/-- C9: `Game::MoveProp` with any index outside `[0, size)` leaves the game
state — in particular the prop list — entirely unchanged and produces the
out-of-range diagnostic instead of crashing. -/
theorem c9_moveProp_out_of_range_no_mutation
    (s : GameState) (propIndex : ℤ) (newPosition : Vec3)
    (h : ¬ (0 ≤ propIndex ∧ propIndex < (s.props.length : ℤ))) :
    (Game.MoveProp propIndex newPosition s).1 = s
    ∧ (Game.MoveProp propIndex newPosition s).2.isSome = true := by
  constructor <;> simp [Game.MoveProp, h]

/-- C9 witness: `moveProp` index 99 against the four constructor props
moves nothing and yields the diagnostic. -/
theorem c9_witness :
    (Game.MoveProp 99 { x := 0, y := 0, z := 0 } initialGameState).1 = initialGameState
    ∧ (Game.MoveProp 99 { x := 0, y := 0, z := 0 } initialGameState).2.isSome = true :=
  c9_moveProp_out_of_range_no_mutation initialGameState 99 { x := 0, y := 0, z := 0 } (by decide)

/-- C10: camera-shake offsets are not cumulative: with the shake latch
clear, the first `MovePlayerCamera` call latches the player's position as
the origin and every call — first or later — places the player at that
latched origin plus this call's offset alone, so two successive calls with
offsets `a` then `b` leave the player at origin plus `b`; the latch is
never reset. -/
theorem c10_movePlayerCamera_offsets_not_cumulative
    (s : GameState) (p : Player) (a b : Vec3)
    (hplayer : s.player = some p) (hshake : s.cameraShakeActive = false) :
    ((Game.MovePlayerCamera a s).player = some { position := Vec3.add p.position a }
      ∧ (Game.MovePlayerCamera a s).originalPlayerPosition = p.position
      ∧ (Game.MovePlayerCamera a s).cameraShakeActive = true
      ∧ (Game.MovePlayerCamera b (Game.MovePlayerCamera a s)).player
          = some { position := Vec3.add p.position b }
      ∧ (Game.MovePlayerCamera b (Game.MovePlayerCamera a s)).originalPlayerPosition = p.position)
    ∧ (∀ (s1 : GameState) (p1 : Player) (c : Vec3),
        s1.player = some p1 → s1.cameraShakeActive = true →
        (Game.MovePlayerCamera c s1).player
            = some { position := Vec3.add s1.originalPlayerPosition c }
          ∧ (Game.MovePlayerCamera c s1).originalPlayerPosition = s1.originalPlayerPosition
          ∧ (Game.MovePlayerCamera c s1).cameraShakeActive = true) := by
  constructor
  · obtain ⟨gs, props, player, orig, shake, sp, si, qf⟩ := s
    have hp2 : player = some p := hplayer
    subst hp2
    have hs2 : shake = false := hshake
    subst hs2
    exact ⟨rfl, rfl, rfl, rfl, rfl⟩
  · intro s1 p1 c hp1 hs1
    obtain ⟨gs, props, player, orig, shake, sp, si, qf⟩ := s1
    have hp2 : player = some p1 := hp1
    subst hp2
    have hs2 : shake = true := hs1
    subst hs2
    exact ⟨rfl, rfl, rfl⟩

/-- C10 witness: on the fresh state (player at (-2, 0, 1), latch clear),
shaking by (1, 0, 0) and then by (0, 1, 0) leaves the player at the latched
origin plus (0, 1, 0) alone. -/
theorem c10_witness :
    (Game.MovePlayerCamera { x := 0, y := 1, z := 0 }
        (Game.MovePlayerCamera { x := 1, y := 0, z := 0 } initialGameState)).player
      = some { position := Vec3.add { x := -2, y := 0, z := 1 } { x := 0, y := 1, z := 0 } } :=
  (c10_movePlayerCamera_offsets_not_cumulative initialGameState
      { position := { x := -2, y := 0, z := 1 } }
      { x := 1, y := 0, z := 0 } { x := 0, y := 1, z := 0 } rfl rfl).1.2.2.2.1

end ScriptVisualTests
